import Mathlib

/-
Shallow embedding of the DynamoDB query-abstraction client of
fast-students-api (src/clients/dynamo_client.py), together with proofs of
the specification claims about it.

Python values that can appear as attribute values, sort values and
dictionary entries are modelled by the inductive `PyVal`; Python truthiness
(`if sort_key and sort_value:`, `if limit:`, ...) is modelled by `pyTruthy`.
Python dictionaries are modelled as insertion-ordered association lists
(`dictInsert` has the replace-in-place-or-append semantics of `d[k] = v`).
The boto3 `Key(...)` condition objects are modelled by the inductive `Cond`.
The DynamoDB backend (`table.query`, `table.put_item`,
`dynamo_resource.batch_get_item`) is passed in as a function parameter, so
that the client code under verification is exactly the request assembly,
response normalisation and error propagation logic of the source.
-/

set_option autoImplicit false

namespace FastStudentsApi

/-- Model of a Python scalar or tuple value as it flows through the client:
strings, integers, booleans and tuples (used for the `between` range pair). -/
inductive PyVal where
  | str (s : String)
  | int (n : Int)
  | bool (b : Bool)
  | tuple (l : List PyVal)

/-- Python truthiness of a `PyVal`: empty string, zero, `False` and the
empty tuple are falsy, everything else is truthy. -/
def pyTruthy : PyVal → Bool
  | .str s => !(s = "")
  | .int n => !(n = 0)
  | .bool b => b
  | .tuple l => !l.isEmpty

/-- Python indexing `v[i]`: defined for tuples (and strings, which index to
one-character strings); `none` models the `TypeError`/`IndexError` raised
otherwise. -/
def pyIndex : PyVal → Nat → Option PyVal
  | .tuple l, i => l.get? i
  | .str s, i => (s.toList.get? i).map (fun c => PyVal.str (String.mk [c]))
  | _, _ => none

/-- Model of a boto3 key-condition expression object, as built by
`Key(name).eq(v)`, `.gt(v)`, `.gte(v)`, `.between(lo, hi)` and `&`. -/
inductive Cond where
  | keyEq (k : String) (v : PyVal)
  | keyGt (k : String) (v : PyVal)
  | keyGte (k : String) (v : PyVal)
  | keyBetween (k : String) (lo hi : PyVal)
  | and (a b : Cond)

/-- Model of a botocore `ClientError` as reported by the backend: an error
code and a human-readable message (`e.response["Error"]["Message"]`). -/
structure ClientError where
  code : String
  message : String

/-- Errors a client operation can raise: a re-raised backend `ClientError`,
a Python indexing error (`sort_value[0]` on a non-indexable or too-short
value), or a `KeyError` from dictionary indexing. -/
inductive PyErr where
  | client (e : ClientError)
  | indexError
  | keyError

/-- An item or a key map: a Python dict from attribute name to value. -/
abbrev Item := List (String × PyVal)

/-- A pagination cursor: DynamoDB's `LastEvaluatedKey` /
`ExclusiveStartKey`, itself a key map. -/
abbrev Cursor := List (String × PyVal)

/-- A value stored in the query-parameter dictionary handed to
`table.query(**query_params)`. -/
inductive ParamValue where
  | cond (c : Cond)
  | str (s : String)
  | bool (b : Bool)
  | cursor (c : Cursor)
  | nat (n : Nat)

/-- The query-parameter dictionary, as an insertion-ordered association
list. -/
abbrev Dict := List (String × ParamValue)

/-- Dictionary lookup `d[k]` returning `none` when the key is absent. -/
def dictGet : Dict → String → Option ParamValue
  | [], _ => none
  | (k0, v) :: t, k => if k0 = k then some v else dictGet t k

/-- Python dictionary assignment `d[k] = v`: replaces the value in place if
the key is present, otherwise appends the new entry at the end. -/
def dictInsert : Dict → String → ParamValue → Dict
  | [], k, v => [(k, v)]
  | (k0, v0) :: t, k, v =>
      if k0 = k then (k, v) :: t else (k0, v0) :: dictInsert t k v

/-- Shorthand for the single entry of the dictionary returned by the
key-expression builder. -/
def kce (c : Cond) : String × ParamValue := ("KeyConditionExpression", .cond c)

/-- Embedding of `DynamoDBClient._build_key_expression`. The partition
equality condition is built first; a sort condition is conjoined only when
`sort_key and sort_value` is truthy, per the comparator string. For
`between`, `sort_value[0]` and `sort_value[1]` are taken, and an indexing
failure surfaces as the error Python would raise. The result is the
dictionary `{"KeyConditionExpression": key_expr}`. -/
def build_key_expression (partition_key : String) (partition_value : PyVal)
    (sort_key : Option String) (sort_value : Option PyVal)
    (comparator : String) : Except PyErr Dict :=
  let key_expr := Cond.keyEq partition_key partition_value
  match sort_key, sort_value with
  | some sk, some sv =>
      if sk = "" then .ok [kce key_expr]
      else if !pyTruthy sv then .ok [kce key_expr]
      else if comparator = "eq" then
        .ok [kce (.and key_expr (.keyEq sk sv))]
      else if comparator = "gt" then
        .ok [kce (.and key_expr (.keyGt sk sv))]
      else if comparator = "gte" then
        .ok [kce (.and key_expr (.keyGte sk sv))]
      else if comparator = "between" then
        match pyIndex sv 0, pyIndex sv 1 with
        | some lo, some hi => .ok [kce (.and key_expr (.keyBetween sk lo hi))]
        | _, _ => .error .indexError
      else .ok [kce key_expr]
  | _, _ => .ok [kce key_expr]

/-- Default value of the `comparator` parameter of
`_build_key_expression`. -/
def build_key_expression_default_comparator : String := "eq"

/-- Line `if index_name: query_params["IndexName"] = index_name` of
`_execute_query`. -/
def add_index_name (qp : Dict) (index_name : Option String) : Dict :=
  match index_name with
  | some s => if s = "" then qp else dictInsert qp "IndexName" (.str s)
  | none => qp

/-- Line `if filter_expression: query_params["FilterExpression"] = ...` of
`_execute_query`. -/
def add_filter_expression (qp : Dict) (filter_expression : Option String) : Dict :=
  match filter_expression with
  | some s => if s = "" then qp else dictInsert qp "FilterExpression" (.str s)
  | none => qp

/-- Line `if projection_expression: query_params["ProjectionExpression"] =
...` of `_execute_query`. -/
def add_projection_expression (qp : Dict) (projection_expression : Option String) : Dict :=
  match projection_expression with
  | some s => if s = "" then qp else dictInsert qp "ProjectionExpression" (.str s)
  | none => qp

/-- Line `if descending_order: query_params["ScanIndexForward"] = False` of
`_execute_query`. -/
def add_scan_index_forward (qp : Dict) (descending_order : Bool) : Dict :=
  if descending_order then dictInsert qp "ScanIndexForward" (.bool false) else qp

/-- Line `if last_evaluated_key: query_params["ExclusiveStartKey"] = ...`
of `_execute_query`; an empty key map is falsy and hence not added. -/
def add_exclusive_start_key (qp : Dict) (last_evaluated_key : Option Cursor) : Dict :=
  match last_evaluated_key with
  | some c => if c.isEmpty then qp else dictInsert qp "ExclusiveStartKey" (.cursor c)
  | none => qp

/-- Line `if limit: query_params["Limit"] = limit` of `_execute_query`;
`limit = 0` is falsy and hence not added. -/
def add_limit (qp : Dict) (limit : Option Nat) : Dict :=
  match limit with
  | some n => if n = 0 then qp else dictInsert qp "Limit" (.nat n)
  | none => qp

/-- The request-parameter assembly of `_execute_query`: starts from
`key_expr.copy()` and layers the optional parameters on in source order. -/
def build_query_params (key_expr : Dict) (index_name filter_expression
    projection_expression : Option String) (descending_order : Bool)
    (last_evaluated_key : Option Cursor) (limit : Option Nat) : Dict :=
  add_limit
    (add_exclusive_start_key
      (add_scan_index_forward
        (add_projection_expression
          (add_filter_expression
            (add_index_name key_expr index_name)
            filter_expression)
          projection_expression)
        descending_order)
      last_evaluated_key)
    limit

/-- Model of the backend response to `table.query`: the `Items` and
`LastEvaluatedKey` fields, each possibly absent. -/
structure QueryResponse where
  items : Option (List Item)
  lastEvaluatedKey : Option Cursor

/-- The backend `table.query` operation, passed in as a parameter: given
the assembled request parameters, it either returns a response or reports
a `ClientError`. -/
abbrev Backend := Dict → Except ClientError QueryResponse

/-- Embedding of `DynamoDBClient._execute_query`: assembles the request,
issues the query, and normalises the outcome to
`(response.get("Items", []), response.get("LastEvaluatedKey", None))`; a
`ClientError` is logged and re-raised unchanged. -/
def execute_query (backendQuery : Backend) (key_expr : Dict)
    (index_name filter_expression projection_expression : Option String)
    (descending_order : Bool) (last_evaluated_key : Option Cursor)
    (limit : Option Nat) : Except PyErr (List Item × Option Cursor) :=
  let query_params := build_query_params key_expr index_name filter_expression
    projection_expression descending_order last_evaluated_key limit
  match backendQuery query_params with
  | .ok response => .ok (response.items.getD [], response.lastEvaluatedKey)
  | .error e => .error (.client e)

/-- Default value of the `descending_order` parameter of
`_execute_query`. -/
def execute_query_default_descending_order : Bool := false

/-- Embedding of `DynamoDBClient.insert_item`: a single `put_item` call; a
`ClientError` is logged and re-raised unchanged. -/
def insert_item (put : Item → Except ClientError Unit) (item : Item) :
    Except PyErr Unit :=
  match put item with
  | .ok _ => .ok ()
  | .error e => .error (.client e)

/-- Default value of the `descending_order` parameter of `fetch_items`. -/
def fetch_items_default_descending_order : Bool := true

/-- Embedding of `DynamoDBClient.fetch_items`: builds the key expression
with the default `eq` comparator, executes, and discards the pagination
cursor. -/
def fetch_items (backendQuery : Backend) (partition_key : String)
    (partition_value : PyVal) (sort_key : Option String)
    (sort_value : Option PyVal) (index_name filter_expression
    projection_expression : Option String) (descending_order : Bool) :
    Except PyErr (List Item) :=
  match build_key_expression partition_key partition_value sort_key sort_value
      build_key_expression_default_comparator with
  | .error e => .error e
  | .ok key_expr =>
      match execute_query backendQuery key_expr index_name filter_expression
          projection_expression descending_order none none with
      | .error e => .error e
      | .ok (items, _) => .ok items

/-- Embedding of `DynamoDBClient.fetch_items_with_sort_greater_than`: sort
key and value are mandatory, comparator is `gt`, and `_execute_query` is
called with its own defaults for order, cursor and limit. -/
def fetch_items_with_sort_greater_than (backendQuery : Backend)
    (partition_key : String) (partition_value : PyVal) (sort_key : String)
    (sort_value : PyVal) (index_name filter_expression
    projection_expression : Option String) : Except PyErr (List Item) :=
  match build_key_expression partition_key partition_value (some sort_key)
      (some sort_value) "gt" with
  | .error e => .error e
  | .ok key_expr =>
      match execute_query backendQuery key_expr index_name filter_expression
          projection_expression execute_query_default_descending_order
          none none with
      | .error e => .error e
      | .ok (items, _) => .ok items

/-- Embedding of `DynamoDBClient.fetch_items_with_sort_range`: the range
endpoints are packed into a tuple, comparator is `between`, and
`_execute_query` is called with its own defaults for filter, projection,
order, cursor and limit. -/
def fetch_items_with_sort_range (backendQuery : Backend)
    (partition_key : String) (partition_value : PyVal) (sort_key : String)
    (sort_range_start sort_range_end : PyVal) (index_name : Option String) :
    Except PyErr (List Item) :=
  match build_key_expression partition_key partition_value (some sort_key)
      (some (.tuple [sort_range_start, sort_range_end])) "between" with
  | .error e => .error e
  | .ok key_expr =>
      match execute_query backendQuery key_expr index_name none none
          execute_query_default_descending_order none none with
      | .error e => .error e
      | .ok (items, _) => .ok items

/-- Default value of the `descending_order` parameter of
`paginate_query`. -/
def paginate_query_default_descending_order : Bool := false

/-- Embedding of `DynamoDBClient.paginate_query`: builds the key expression
with the default `eq` comparator and returns `_execute_query`'s
`(items, last_evaluated_key)` pair unchanged. -/
def paginate_query (backendQuery : Backend) (partition_key : String)
    (partition_value : PyVal) (sort_key : Option String)
    (sort_value : Option PyVal) (index_name : Option String)
    (last_evaluated_key : Option Cursor) (limit : Option Nat)
    (filter_expression : Option String) (descending_order : Bool)
    (projection_expression : Option String) :
    Except PyErr (List Item × Option Cursor) :=
  match build_key_expression partition_key partition_value sort_key sort_value
      build_key_expression_default_comparator with
  | .error e => .error e
  | .ok key_expr =>
      execute_query backendQuery key_expr index_name filter_expression
        projection_expression descending_order last_evaluated_key limit

/-- The per-table part of a `batch_get_item` request:
`{"Keys": keys, "ConsistentRead": True}`. -/
structure BatchTableRequest where
  keys : List Item
  consistentRead : Bool

/-- A full `batch_get_item` request: the `RequestItems` mapping from table
name to per-table request, plus `ReturnConsumedCapacity`. -/
structure BatchRequest where
  requestItems : List (String × BatchTableRequest)
  returnConsumedCapacity : String

/-- Model of the backend response to `batch_get_item`: `Responses` maps
each table name to its retrieved items; `UnprocessedKeys` holds the keys
the backend did not get to. -/
structure BatchResponse where
  responses : List (String × List Item)
  unprocessedKeys : List (String × BatchTableRequest)

/-- The backend `batch_get_item` operation, passed in as a parameter. -/
abbrev BatchBackend := BatchRequest → Except ClientError BatchResponse

/-- Association-list lookup used for `response["Responses"][table_name]`. -/
def tableLookup : List (String × List Item) → String → Option (List Item)
  | [], _ => none
  | (k0, v) :: t, k => if k0 = k then some v else tableLookup t k

/-- The request assembled by `batch_get_items`: one key map
`{partition_key: val}` per value, under the single table name, with
`ConsistentRead: True` and `ReturnConsumedCapacity: "TOTAL"`. -/
def batch_get_request (table_name partition_key : String)
    (partition_values : List PyVal) : BatchRequest :=
  { requestItems :=
      [(table_name,
        { keys := partition_values.map (fun val => [(partition_key, val)]),
          consistentRead := true })],
    returnConsumedCapacity := "TOTAL" }

/-- Embedding of `DynamoDBClient.batch_get_items`: issues the single batch
request and returns `response["Responses"][self.table_name]`; a missing
table entry is Python's `KeyError`, a `ClientError` is logged and re-raised
unchanged. `UnprocessedKeys` is never read. -/
def batch_get_items (backendBatchGet : BatchBackend) (table_name : String)
    (partition_key : String) (partition_values : List PyVal) :
    Except PyErr (List Item) :=
  match backendBatchGet (batch_get_request table_name partition_key
      partition_values) with
  | .error e => .error (.client e)
  | .ok response =>
      match tableLookup response.responses table_name with
      | some items => .ok items
      | none => .error .keyError

/-- The client object constructed by `DynamoDBClient.__init__`, after the
assertion passed: it holds the table name and the backend table handle. -/
structure DynamoDBClient where
  table_name : String

/-- Embedding of `DynamoDBClient.__init__`. The argument is `none` for a
missing (`None`) table name. The assertion `assert table_name` runs first:
a falsy table name raises `AssertionError` with the source's message before
the boto3 resource or table handle is touched; otherwise the client is
constructed and the list of backend-handle acquisitions it performed
(`boto3.resource`, `Table`) is recorded. -/
def client_init (table_name : Option String) :
    Except String (DynamoDBClient × List String) :=
  match table_name with
  | none => .error "Table name must not be empty"
  | some s =>
      if s = "" then .error "Table name must not be empty"
      else .ok ({ table_name := s }, ["dynamo_resource", "table"])

/-- A condition includes the partition equality condition when it is either
that condition alone or that condition conjoined (by the source's
`key_expr &= ...`) with one sort condition. -/
def partitionEqIncluded (partition_key : String) (partition_value : PyVal)
    (c : Cond) : Prop :=
  c = Cond.keyEq partition_key partition_value ∨
    ∃ s, c = Cond.and (Cond.keyEq partition_key partition_value) s

/-- Looking up the key just inserted returns the inserted value. -/
theorem dictGet_dictInsert_self (d : Dict) (k : String) (v : ParamValue) :
    dictGet (dictInsert d k v) k = some v := by
  induction d with
  | nil => simp [dictInsert, dictGet]
  | cons hd t ih =>
      obtain ⟨k0, v0⟩ := hd
      by_cases hk : k0 = k
      · simp [dictInsert, hk, dictGet]
      · simp [dictInsert, hk, dictGet, ih]

/-- Inserting one key leaves lookups of every other key unchanged. -/
theorem dictGet_dictInsert_ne (d : Dict) (k kq : String) (v : ParamValue)
    (h : kq ≠ k) : dictGet (dictInsert d k v) kq = dictGet d kq := by
  induction d with
  | nil => simp [dictInsert, dictGet, Ne.symm h]
  | cons hd t ih =>
      obtain ⟨k0, v0⟩ := hd
      by_cases hk : k0 = k
      · subst hk; simp [dictInsert, dictGet, Ne.symm h]
      · by_cases h0 : k0 = kq
        · simp [dictInsert, hk, dictGet, h0, h]
        · simp [dictInsert, hk, dictGet, h0, ih]

/-- A key present after an insertion was the inserted key or was already
present. -/
theorem mem_keys_dictInsert (d : Dict) (k kq : String) (v : ParamValue)
    (h : kq ∈ (dictInsert d k v).map Prod.fst) :
    kq = k ∨ kq ∈ d.map Prod.fst := by
  induction d with
  | nil =>
      simp [dictInsert] at h
      exact Or.inl h
  | cons hd t ih =>
      obtain ⟨k0, v0⟩ := hd
      by_cases hk : k0 = k
      · simp [dictInsert, hk] at h
        rcases h with h | h
        · exact Or.inl h
        · exact Or.inr (by simp [h])
      · simp [dictInsert, hk] at h
        rcases h with h | h
        · exact Or.inr (by simp [h])
        · rcases ih (by simpa using h) with h1 | h1
          · exact Or.inl h1
          · exact Or.inr (by simp [h1])

/-- Inserting a key different from the head key keeps the head in place. -/
theorem dictInsert_cons_ne (k0 : String) (v0 : ParamValue) (t : Dict)
    (k : String) (v : ParamValue) (h : k0 ≠ k) :
    dictInsert ((k0, v0) :: t) k v = (k0, v0) :: dictInsert t k v := by
  simp [dictInsert, h]

/-- Invariant used for the executor's frame property: the dictionary still
starts with the untouched key-condition entry and holds no second binding
for `KeyConditionExpression`. -/
def kceShape (c : Cond) (d : Dict) : Prop :=
  ∃ extra, d = kce c :: extra ∧ "KeyConditionExpression" ∉ extra.map Prod.fst

/-- Inserting any key other than `KeyConditionExpression` preserves
`kceShape`. -/
theorem kceShape_dictInsert (c : Cond) (d : Dict) (k : String) (v : ParamValue)
    (hk : k ≠ "KeyConditionExpression") (h : kceShape c d) :
    kceShape c (dictInsert d k v) := by
  obtain ⟨extra, rfl, hmem⟩ := h
  refine ⟨dictInsert extra k v, ?_, ?_⟩
  · exact dictInsert_cons_ne _ _ _ _ _ (fun he => hk he.symm)
  · intro hmem2
    rcases mem_keys_dictInsert extra k _ v hmem2 with h1 | h1
    · exact hk h1.symm
    · exact hmem h1

/-- Each optional-parameter step of the executor either leaves the
dictionary alone or performs one insertion at its fixed key. -/
theorem add_index_name_cases (qp : Dict) (o : Option String) :
    add_index_name qp o = qp ∨
      ∃ v, add_index_name qp o = dictInsert qp "IndexName" v := by
  rcases o with _ | s
  · exact Or.inl rfl
  · by_cases hs : s = ""
    · exact Or.inl (by simp [add_index_name, hs])
    · exact Or.inr ⟨.str s, by simp [add_index_name, hs]⟩

/-- Case split for the filter-expression step. -/
theorem add_filter_expression_cases (qp : Dict) (o : Option String) :
    add_filter_expression qp o = qp ∨
      ∃ v, add_filter_expression qp o = dictInsert qp "FilterExpression" v := by
  rcases o with _ | s
  · exact Or.inl rfl
  · by_cases hs : s = ""
    · exact Or.inl (by simp [add_filter_expression, hs])
    · exact Or.inr ⟨.str s, by simp [add_filter_expression, hs]⟩

/-- Case split for the projection-expression step. -/
theorem add_projection_expression_cases (qp : Dict) (o : Option String) :
    add_projection_expression qp o = qp ∨
      ∃ v, add_projection_expression qp o
        = dictInsert qp "ProjectionExpression" v := by
  rcases o with _ | s
  · exact Or.inl rfl
  · by_cases hs : s = ""
    · exact Or.inl (by simp [add_projection_expression, hs])
    · exact Or.inr ⟨.str s, by simp [add_projection_expression, hs]⟩

/-- Case split for the scan-order step. -/
theorem add_scan_index_forward_cases (qp : Dict) (b : Bool) :
    add_scan_index_forward qp b = qp ∨
      ∃ v, add_scan_index_forward qp b = dictInsert qp "ScanIndexForward" v := by
  cases b
  · exact Or.inl rfl
  · exact Or.inr ⟨.bool false, rfl⟩

/-- Case split for the pagination-cursor step. -/
theorem add_exclusive_start_key_cases (qp : Dict) (o : Option Cursor) :
    add_exclusive_start_key qp o = qp ∨
      ∃ v, add_exclusive_start_key qp o = dictInsert qp "ExclusiveStartKey" v := by
  rcases o with _ | c
  · exact Or.inl rfl
  · by_cases hc : c.isEmpty
    · exact Or.inl (by simp [add_exclusive_start_key, hc])
    · exact Or.inr ⟨.cursor c, by simp [add_exclusive_start_key, hc]⟩

/-- Case split for the limit step. -/
theorem add_limit_cases (qp : Dict) (o : Option Nat) :
    add_limit qp o = qp ∨
      ∃ v, add_limit qp o = dictInsert qp "Limit" v := by
  rcases o with _ | n
  · exact Or.inl rfl
  · by_cases hn : n = 0
    · exact Or.inl (by simp [add_limit, hn])
    · exact Or.inr ⟨.nat n, by simp [add_limit, hn]⟩

/-- A step that either does nothing or inserts at a key other than `kq`
leaves the lookup of `kq` unchanged. -/
theorem dictGet_step_ne (d d2 : Dict) (k kq : String)
    (hk : kq ≠ k) (hcase : d2 = d ∨ ∃ v, d2 = dictInsert d k v) :
    dictGet d2 kq = dictGet d kq := by
  rcases hcase with rfl | ⟨v, rfl⟩
  · rfl
  · exact dictGet_dictInsert_ne d k kq v hk

/-- A step that either does nothing or inserts at a key other than
`KeyConditionExpression` preserves `kceShape`. -/
theorem kceShape_step (c : Cond) (d d2 : Dict) (k : String)
    (hk : k ≠ "KeyConditionExpression")
    (hcase : d2 = d ∨ ∃ v, d2 = dictInsert d k v) (h : kceShape c d) :
    kceShape c d2 := by
  rcases hcase with rfl | ⟨v, rfl⟩
  · exact h
  · exact kceShape_dictInsert c d k v hk h

/-- Whatever the optional parameters, the assembled request dictionary
still starts with the untouched key-condition entry. -/
theorem kceShape_build_query_params (c : Cond) (i f p : Option String)
    (dsc : Bool) (cur : Option Cursor) (lim : Option Nat) :
    kceShape c (build_query_params [kce c] i f p dsc cur lim) := by
  have h0 : kceShape c [kce c] := ⟨[], rfl, by simp⟩
  have h1 := kceShape_step c _ _ "IndexName" (by decide)
    (add_index_name_cases [kce c] i) h0
  have h2 := kceShape_step c _ _ "FilterExpression" (by decide)
    (add_filter_expression_cases _ f) h1
  have h3 := kceShape_step c _ _ "ProjectionExpression" (by decide)
    (add_projection_expression_cases _ p) h2
  have h4 := kceShape_step c _ _ "ScanIndexForward" (by decide)
    (add_scan_index_forward_cases _ dsc) h3
  have h5 := kceShape_step c _ _ "ExclusiveStartKey" (by decide)
    (add_exclusive_start_key_cases _ cur) h4
  have h6 := kceShape_step c _ _ "Limit" (by decide)
    (add_limit_cases _ lim) h5
  exact h6

/-- Every successful run of the key-expression builder returns a singleton
`KeyConditionExpression` dictionary whose condition includes the partition
equality condition. -/
theorem build_key_expression_shape (pk : String) (pv : PyVal)
    (sko : Option String) (svo : Option PyVal) (cmp : String) (d : Dict)
    (h : build_key_expression pk pv sko svo cmp = .ok d) :
    ∃ c, d = [kce c] ∧ partitionEqIncluded pk pv c := by
  unfold build_key_expression at h
  rcases sko with _ | sk <;> rcases svo with _ | sv
  · exact ⟨_, by simpa using h.symm, Or.inl rfl⟩
  · exact ⟨_, by simpa using h.symm, Or.inl rfl⟩
  · exact ⟨_, by simpa using h.symm, Or.inl rfl⟩
  · simp only at h
    split at h
    · exact ⟨_, by simpa using h.symm, Or.inl rfl⟩
    · split at h
      · exact ⟨_, by simpa using h.symm, Or.inl rfl⟩
      · split at h
        · exact ⟨_, by simpa using h.symm, Or.inr ⟨_, rfl⟩⟩
        · split at h
          · exact ⟨_, by simpa using h.symm, Or.inr ⟨_, rfl⟩⟩
          · split at h
            · exact ⟨_, by simpa using h.symm, Or.inr ⟨_, rfl⟩⟩
            · split at h
              · split at h
                · exact ⟨_, by simpa using h.symm, Or.inr ⟨_, rfl⟩⟩
                · exact absurd h (by simp)
              · exact ⟨_, by simpa using h.symm, Or.inl rfl⟩

/-- C1: the key-expression builder always includes the partition equality
condition, and when a truthy sort key and sort value are supplied it
conjoins exactly one sort condition chosen by the comparator: `eq` gives
`sort == value`, `gt` gives `sort > value`, `gte` gives `sort >= value`,
and `between` gives `value[0] <= sort <= value[1]` with the endpoints in
the caller-supplied order. -/
theorem C1_build_key_expression_comparators (pk sk : String)
    (pv x lo hi : PyVal) (hsk : sk ≠ "") (hx : pyTruthy x = true) :
    build_key_expression pk pv (some sk) (some x) "eq"
      = .ok [kce (.and (.keyEq pk pv) (.keyEq sk x))] ∧
    build_key_expression pk pv (some sk) (some x) "gt"
      = .ok [kce (.and (.keyEq pk pv) (.keyGt sk x))] ∧
    build_key_expression pk pv (some sk) (some x) "gte"
      = .ok [kce (.and (.keyEq pk pv) (.keyGte sk x))] ∧
    build_key_expression pk pv (some sk) (some (.tuple [lo, hi])) "between"
      = .ok [kce (.and (.keyEq pk pv) (.keyBetween sk lo hi))] ∧
    ∀ sko svo cmp d, build_key_expression pk pv sko svo cmp = .ok d →
      ∃ c, d = [kce c] ∧ partitionEqIncluded pk pv c := by
  refine ⟨?_, ?_, ?_, ?_, ?_⟩
  · simp [build_key_expression, hsk, hx]
  · simp [build_key_expression, hsk, hx]
  · simp [build_key_expression, hsk, hx]
  · simp [build_key_expression, hsk, pyTruthy, pyIndex]
  · exact fun sko svo cmp d h => build_key_expression_shape pk pv sko svo cmp d h

/-- Witness for C1 at a concrete instance. -/
theorem C1_build_key_expression_comparators_witness :
    ("s" : String) ≠ "" ∧ pyTruthy (.int 2) = true ∧
    (build_key_expression "p" (.int 1) (some "s") (some (.int 2)) "eq"
      = .ok [kce (.and (.keyEq "p" (.int 1)) (.keyEq "s" (.int 2)))] ∧
    build_key_expression "p" (.int 1) (some "s") (some (.int 2)) "gt"
      = .ok [kce (.and (.keyEq "p" (.int 1)) (.keyGt "s" (.int 2)))] ∧
    build_key_expression "p" (.int 1) (some "s") (some (.int 2)) "gte"
      = .ok [kce (.and (.keyEq "p" (.int 1)) (.keyGte "s" (.int 2)))] ∧
    build_key_expression "p" (.int 1) (some "s")
        (some (.tuple [.int 3, .int 4])) "between"
      = .ok [kce (.and (.keyEq "p" (.int 1)) (.keyBetween "s" (.int 3) (.int 4)))] ∧
    ∀ sko svo cmp d, build_key_expression "p" (.int 1) sko svo cmp = .ok d →
      ∃ c, d = [kce c] ∧ partitionEqIncluded "p" (.int 1) c) :=
  ⟨by decide, by decide,
    C1_build_key_expression_comparators "p" "s" (.int 1) (.int 2) (.int 3)
      (.int 4) (by decide) (by decide)⟩

/-- C6: with both sort key and sort value present but a comparator outside
the four recognised strings, no error is raised and no sort condition is
added — the result is the partition equality condition alone, identical to
a call with no sort key supplied. -/
theorem C6_unknown_comparator_ignored (pk sk cmp : String) (pv sv : PyVal)
    (h1 : cmp ≠ "eq") (h2 : cmp ≠ "gt") (h3 : cmp ≠ "gte")
    (h4 : cmp ≠ "between") :
    build_key_expression pk pv (some sk) (some sv) cmp
      = .ok [kce (.keyEq pk pv)] ∧
    build_key_expression pk pv (some sk) (some sv) cmp
      = build_key_expression pk pv none none cmp := by
  have hbase : build_key_expression pk pv (some sk) (some sv) cmp
      = .ok [kce (.keyEq pk pv)] := by
    unfold build_key_expression
    simp only [h1, h2, h3, h4, if_false]
    split <;> try rfl
    split <;> rfl
  exact ⟨hbase, by rw [hbase]; rfl⟩

/-- Witness for C6 with the comparator string `lt`. -/
theorem C6_unknown_comparator_ignored_witness :
    ("lt" : String) ≠ "eq" ∧ ("lt" : String) ≠ "gt" ∧
    ("lt" : String) ≠ "gte" ∧ ("lt" : String) ≠ "between" ∧
    (build_key_expression "p" (.int 1) (some "s") (some (.str "v")) "lt"
      = .ok [kce (.keyEq "p" (.int 1))] ∧
    build_key_expression "p" (.int 1) (some "s") (some (.str "v")) "lt"
      = build_key_expression "p" (.int 1) none none "lt") :=
  ⟨by decide, by decide, by decide, by decide,
    C6_unknown_comparator_ignored "p" "s" "lt" (.int 1) (.str "v")
      (by decide) (by decide) (by decide) (by decide)⟩

/-- C10: the sort condition is gated on Python truthiness, not presence:
with a supplied sort key but a falsy sort value (zero, empty string, empty
tuple) the built expression is the partition equality condition alone, for
every comparator, exactly as when no sort value is supplied. -/
theorem C10_falsy_sort_value_dropped (pk sk cmp : String) (pv sv : PyVal)
    (hsv : pyTruthy sv = false) :
    build_key_expression pk pv (some sk) (some sv) cmp
      = .ok [kce (.keyEq pk pv)] ∧
    build_key_expression pk pv (some sk) (some sv) cmp
      = build_key_expression pk pv (some sk) none cmp := by
  have hbase : build_key_expression pk pv (some sk) (some sv) cmp
      = .ok [kce (.keyEq pk pv)] := by
    unfold build_key_expression
    simp only [hsv]
    split <;> rfl
  exact ⟨hbase, by rw [hbase]; rfl⟩

/-- Witness for C10 with the falsy sort value `()` (empty tuple) and the
comparator `between`. -/
theorem C10_falsy_sort_value_dropped_witness :
    pyTruthy (.tuple []) = false ∧
    (build_key_expression "p" (.int 1) (some "s") (some (.tuple [])) "between"
      = .ok [kce (.keyEq "p" (.int 1))] ∧
    build_key_expression "p" (.int 1) (some "s") (some (.tuple [])) "between"
      = build_key_expression "p" (.int 1) (some "s") none "between") :=
  ⟨rfl, C10_falsy_sort_value_dropped "p" "s" "between" (.int 1) (.tuple []) rfl⟩

/-- C8: the executor layers its optional parameters onto a copy as
additional request fields: whatever options are supplied, the assembled
request still begins with exactly the key-condition entry it received,
carries no second `KeyConditionExpression` binding, and looking the entry
up returns the original condition object unaltered. -/
theorem C8_executor_preserves_key_condition (c : Cond) (i f p : Option String)
    (dsc : Bool) (cur : Option Cursor) (lim : Option Nat) :
    (∃ extra, build_query_params [kce c] i f p dsc cur lim = kce c :: extra ∧
      "KeyConditionExpression" ∉ extra.map Prod.fst) ∧
    dictGet (build_query_params [kce c] i f p dsc cur lim)
      "KeyConditionExpression" = some (.cond c) := by
  constructor
  · exact kceShape_build_query_params c i f p dsc cur lim
  · obtain ⟨extra, heq, hmem⟩ := kceShape_build_query_params c i f p dsc cur lim
    rw [heq]
    simp [dictGet, kce]

/-- C2: when the backend reports a client error, the executor and the
insert operation log it and re-raise exactly that error; in particular the
result is never an empty item list. -/
theorem C2_backend_error_reraised (backendQuery : Backend)
    (put : Item → Except ClientError Unit) (ke : Dict)
    (i f p : Option String) (dsc : Bool) (cur : Option Cursor)
    (lim : Option Nat) (e e2 : ClientError) (item : Item)
    (hq : backendQuery (build_query_params ke i f p dsc cur lim) = .error e)
    (hp : put item = .error e2) :
    execute_query backendQuery ke i f p dsc cur lim = .error (.client e) ∧
    (∀ items ncur, execute_query backendQuery ke i f p dsc cur lim
        ≠ .ok (items, ncur)) ∧
    insert_item put item = .error (.client e2) := by
  have hx : execute_query backendQuery ke i f p dsc cur lim
      = .error (.client e) := by
    unfold execute_query
    simp only [hq]
  refine ⟨hx, ?_, ?_⟩
  · intro items ncur hcontra
    rw [hx] at hcontra
    exact absurd hcontra (by simp)
  · unfold insert_item
    rw [hp]

/-- Witness for C2 with a throttling error on query and a validation error
on put. -/
theorem C2_backend_error_reraised_witness :
    (fun _ : Dict =>
        (Except.error ⟨"Throttling", "rate exceeded"⟩ :
          Except ClientError QueryResponse))
      (build_query_params [kce (.keyEq "p" (.int 1))] none none none false
        none none)
      = .error ⟨"Throttling", "rate exceeded"⟩ ∧
    (fun _ : Item =>
        (Except.error ⟨"Validation", "bad item"⟩ : Except ClientError Unit)) []
      = .error ⟨"Validation", "bad item"⟩ ∧
    (execute_query
        (fun _ => .error ⟨"Throttling", "rate exceeded"⟩)
        [kce (.keyEq "p" (.int 1))] none none none false none none
      = .error (.client ⟨"Throttling", "rate exceeded"⟩) ∧
    (∀ items ncur, execute_query
        (fun _ => .error ⟨"Throttling", "rate exceeded"⟩)
        [kce (.keyEq "p" (.int 1))] none none none false none none
      ≠ .ok (items, ncur)) ∧
    insert_item (fun _ => .error ⟨"Validation", "bad item"⟩) []
      = .error (.client ⟨"Validation", "bad item"⟩)) :=
  ⟨rfl, rfl,
    C2_backend_error_reraised (fun _ => .error ⟨"Throttling", "rate exceeded"⟩)
      (fun _ => .error ⟨"Validation", "bad item"⟩)
      [kce (.keyEq "p" (.int 1))] none none none false none none
      ⟨"Throttling", "rate exceeded"⟩ ⟨"Validation", "bad item"⟩ [] rfl rfl⟩

/-- C3: a supplied (nonempty) pagination cursor is placed in the request
verbatim as the `ExclusiveStartKey` continuation point — never inspected,
modified or parsed — and the backend's `LastEvaluatedKey` is handed back
to the caller unchanged as the next cursor. -/
theorem C3_cursor_round_trip (backendQuery : Backend) (pk : String)
    (pv : PyVal) (sko : Option String) (svo : Option PyVal)
    (i f p : Option String) (dsc : Bool) (cursor : Cursor)
    (lim : Option Nat) (ke : Dict) (resp : QueryResponse)
    (hc : cursor ≠ [])
    (hke : build_key_expression pk pv sko svo
      build_key_expression_default_comparator = .ok ke)
    (hresp : backendQuery (build_query_params ke i f p dsc (some cursor) lim)
      = .ok resp) :
    dictGet (build_query_params ke i f p dsc (some cursor) lim)
      "ExclusiveStartKey" = some (.cursor cursor) ∧
    paginate_query backendQuery pk pv sko svo i (some cursor) lim f dsc p
      = .ok (resp.items.getD [], resp.lastEvaluatedKey) := by
  have hne : cursor.isEmpty = false := by
    cases cursor with
    | nil => exact absurd rfl hc
    | cons a tl => rfl
  constructor
  · unfold build_query_params
    rw [dictGet_step_ne _ _ "Limit" _ (by decide) (add_limit_cases _ lim)]
    show dictGet (add_exclusive_start_key _ (some cursor)) _ = _
    simp [add_exclusive_start_key, hne, dictGet_dictInsert_self]
  · unfold paginate_query
    rw [hke]
    unfold execute_query
    simp only [hresp]

/-- Witness for C3 with a one-field cursor round-tripping through a
backend that reports one item and a new last-evaluated key. -/
theorem C3_cursor_round_trip_witness :
    ([("k", PyVal.str "0")] : Cursor) ≠ [] ∧
    build_key_expression "p" (.int 1) none none
      build_key_expression_default_comparator
      = .ok [kce (.keyEq "p" (.int 1))] ∧
    (fun _ : Dict =>
        (Except.ok ⟨some [[("a", PyVal.str "1")]], some [("k", PyVal.str "2")]⟩ :
          Except ClientError QueryResponse))
      (build_query_params [kce (.keyEq "p" (.int 1))] none none none false
        (some [("k", PyVal.str "0")]) none)
      = .ok ⟨some [[("a", PyVal.str "1")]], some [("k", PyVal.str "2")]⟩ ∧
    (dictGet (build_query_params [kce (.keyEq "p" (.int 1))] none none none
        false (some [("k", PyVal.str "0")]) none) "ExclusiveStartKey"
      = some (.cursor [("k", PyVal.str "0")]) ∧
    paginate_query
        (fun _ => .ok ⟨some [[("a", PyVal.str "1")]], some [("k", PyVal.str "2")]⟩)
        "p" (.int 1) none none none (some [("k", PyVal.str "0")]) none none
        false none
      = .ok ([[("a", PyVal.str "1")]], some [("k", PyVal.str "2")])) :=
  ⟨List.cons_ne_nil _ _, rfl, rfl,
    C3_cursor_round_trip
      (fun _ => .ok ⟨some [[("a", PyVal.str "1")]], some [("k", PyVal.str "2")]⟩)
      "p" (.int 1) none none none none none false [("k", PyVal.str "0")] none
      [kce (.keyEq "p" (.int 1))]
      ⟨some [[("a", PyVal.str "1")]], some [("k", PyVal.str "2")]⟩
      (List.cons_ne_nil _ _) rfl rfl⟩

/-- With the descending flag set, the assembled request carries
`ScanIndexForward = False`, whatever the other options. -/
theorem dictGet_scan_index_forward_true (ke : Dict) (i f p : Option String)
    (cur : Option Cursor) (lim : Option Nat) :
    dictGet (build_query_params ke i f p true cur lim) "ScanIndexForward"
      = some (.bool false) := by
  unfold build_query_params
  rw [dictGet_step_ne _ _ "Limit" _ (by decide) (add_limit_cases _ lim)]
  rw [dictGet_step_ne _ _ "ExclusiveStartKey" _ (by decide)
    (add_exclusive_start_key_cases _ cur)]
  show dictGet (add_scan_index_forward _ true) _ = _
  simp [add_scan_index_forward, dictGet_dictInsert_self]

/-- With the descending flag unset, the assembled request for a builder
dictionary carries no `ScanIndexForward` field at all. -/
theorem dictGet_scan_index_forward_false (c : Cond) (i f p : Option String)
    (cur : Option Cursor) (lim : Option Nat) :
    dictGet (build_query_params [kce c] i f p false cur lim) "ScanIndexForward"
      = none := by
  unfold build_query_params
  rw [dictGet_step_ne _ _ "Limit" _ (by decide) (add_limit_cases _ lim)]
  rw [dictGet_step_ne _ _ "ExclusiveStartKey" _ (by decide)
    (add_exclusive_start_key_cases _ cur)]
  show dictGet (add_projection_expression _ p) _ = _
  rw [dictGet_step_ne _ _ "ProjectionExpression" _ (by decide)
    (add_projection_expression_cases _ p)]
  rw [dictGet_step_ne _ _ "FilterExpression" _ (by decide)
    (add_filter_expression_cases _ f)]
  rw [dictGet_step_ne _ _ "IndexName" _ (by decide)
    (add_index_name_cases _ i)]
  simp [dictGet, kce]

/-- C7: `fetch_items` defaults the descending flag to true, so under its
default the request sets the backend's reverse-order flag
(`ScanIndexForward = False`), while the executor's own default — the one
`fetch_items_with_sort_greater_than`, `fetch_items_with_sort_range` and
`paginate_query` use — is ascending, leaving the flag out of the request
entirely. -/
theorem C7_default_sort_orders (pk : String) (pv : PyVal)
    (sko : Option String) (svo : Option PyVal) (i f p : Option String)
    (cur : Option Cursor) (lim : Option Nat) :
    fetch_items_default_descending_order = true ∧
    execute_query_default_descending_order = false ∧
    paginate_query_default_descending_order = false ∧
    (∀ ke, build_key_expression pk pv sko svo
        build_key_expression_default_comparator = .ok ke →
      dictGet (build_query_params ke i f p fetch_items_default_descending_order
        none none) "ScanIndexForward" = some (.bool false)) ∧
    (∀ cmp ke, build_key_expression pk pv sko svo cmp = .ok ke →
      dictGet (build_query_params ke i f p
        execute_query_default_descending_order cur lim) "ScanIndexForward"
        = none) ∧
    (∀ ke, build_key_expression pk pv sko svo
        build_key_expression_default_comparator = .ok ke →
      dictGet (build_query_params ke i f p
        paginate_query_default_descending_order cur lim) "ScanIndexForward"
        = none) := by
  refine ⟨rfl, rfl, rfl, ?_, ?_, ?_⟩
  · intro ke hke
    exact dictGet_scan_index_forward_true ke i f p none none
  · intro cmp ke hke
    obtain ⟨c, rfl, _⟩ := build_key_expression_shape pk pv sko svo cmp ke hke
    exact dictGet_scan_index_forward_false c i f p cur lim
  · intro ke hke
    obtain ⟨c, rfl, _⟩ := build_key_expression_shape pk pv sko svo _ ke hke
    exact dictGet_scan_index_forward_false c i f p cur lim

/-- Witness for C7 at a concrete key, discharging the nested builder
hypotheses at the concrete builder result. -/
theorem C7_default_sort_orders_witness :
    fetch_items_default_descending_order = true ∧
    execute_query_default_descending_order = false ∧
    paginate_query_default_descending_order = false ∧
    dictGet (build_query_params [kce (.keyEq "p" (.int 1))] none none none
      fetch_items_default_descending_order none none) "ScanIndexForward"
      = some (.bool false) ∧
    dictGet (build_query_params [kce (.keyEq "p" (.int 1))] none none none
      execute_query_default_descending_order none none) "ScanIndexForward"
      = none ∧
    dictGet (build_query_params [kce (.keyEq "p" (.int 1))] none none none
      paginate_query_default_descending_order none none) "ScanIndexForward"
      = none := by
  have h := C7_default_sort_orders "p" (.int 1) none none none none none
    none none
  exact ⟨h.1, h.2.1, h.2.2.1, h.2.2.2.1 _ rfl, h.2.2.2.2.1 "eq" _ rfl,
    h.2.2.2.2.2 _ rfl⟩

/-- C4: a `batch_get_items` call assembles a single batch request: the
`RequestItems` mapping has exactly the one table name, its key list has one
key map `(partition_key, v)` per supplied value in the supplied order, and
strongly-consistent reads are requested. -/
theorem C4_batch_request_single_consistent (table_name partition_key : String)
    (partition_values : List PyVal) :
    (batch_get_request table_name partition_key partition_values).requestItems.map
      Prod.fst = [table_name] ∧
    (batch_get_request table_name partition_key partition_values).requestItems.map
      (fun q => q.2.keys)
      = [partition_values.map (fun v => [(partition_key, v)])] ∧
    (partition_values.map (fun v => [(partition_key, v)])).length
      = partition_values.length ∧
    (∀ n : Nat, (partition_values.map (fun v => [(partition_key, v)]))[n]?
      = (partition_values[n]?).map (fun v => [(partition_key, v)])) ∧
    (batch_get_request table_name partition_key partition_values).requestItems.map
      (fun q => q.2.consistentRead) = [true] := by
  refine ⟨rfl, rfl, by simp, ?_, rfl⟩
  intro n
  simp [List.getElem?_map]

/-- C5: when the backend's batch response carries unprocessed keys, the
operation still returns exactly the retrieved items for the table; the
unprocessed-key set is never read, so the result is identical whatever it
contains — it is neither retried nor surfaced. -/
theorem C5_unprocessed_keys_discarded (table_name partition_key : String)
    (partition_values : List PyVal) (rs : List (String × List Item))
    (uk uk2 : List (String × BatchTableRequest)) (items : List Item)
    (h : tableLookup rs table_name = some items) :
    batch_get_items (fun _ => .ok ⟨rs, uk⟩) table_name partition_key
      partition_values = .ok items ∧
    batch_get_items (fun _ => .ok ⟨rs, uk⟩) table_name partition_key
      partition_values
      = batch_get_items (fun _ => .ok ⟨rs, uk2⟩) table_name partition_key
        partition_values := by
  constructor
  · simp [batch_get_items, h]
  · simp [batch_get_items, h]

/-- Witness for C5: a response holding one retrieved item and a nonempty
unprocessed-key set yields the same result as one with none. -/
theorem C5_unprocessed_keys_discarded_witness :
    tableLookup [("students", [[("id", PyVal.str "1")]])] "students"
      = some [[("id", PyVal.str "1")]] ∧
    (batch_get_items
        (fun _ => .ok ⟨[("students", [[("id", PyVal.str "1")]])],
          [("students", ⟨[[("id", PyVal.str "2")]], true⟩)]⟩)
        "students" "id" [.str "1", .str "2"]
      = .ok [[("id", PyVal.str "1")]] ∧
    batch_get_items
        (fun _ => .ok ⟨[("students", [[("id", PyVal.str "1")]])],
          [("students", ⟨[[("id", PyVal.str "2")]], true⟩)]⟩)
        "students" "id" [.str "1", .str "2"]
      = batch_get_items
          (fun _ => .ok ⟨[("students", [[("id", PyVal.str "1")]])], []⟩)
          "students" "id" [.str "1", .str "2"]) :=
  ⟨rfl,
    C5_unprocessed_keys_discarded "students" "id" [.str "1", .str "2"]
      [("students", [[("id", PyVal.str "1")]])]
      [("students", ⟨[[("id", PyVal.str "2")]], true⟩)] []
      [[("id", PyVal.str "1")]] rfl⟩

/-- C9: constructing the client with a missing or empty table name fails
immediately on the assertion with the source's message, before any backend
handle is acquired; with a non-empty table name construction succeeds (the
error branch is not taken) and the backend handles are then acquired. -/
theorem C9_constructor_assertion (s : String) (hs : s ≠ "") :
    client_init none = .error "Table name must not be empty" ∧
    client_init (some "") = .error "Table name must not be empty" ∧
    client_init (some s)
      = .ok ({ table_name := s }, ["dynamo_resource", "table"]) := by
  refine ⟨rfl, rfl, ?_⟩
  simp [client_init, hs]

/-- Witness for C9 with the table name `students`. -/
theorem C9_constructor_assertion_witness :
    ("students" : String) ≠ "" ∧
    (client_init none = .error "Table name must not be empty" ∧
    client_init (some "") = .error "Table name must not be empty" ∧
    client_init (some "students")
      = .ok ({ table_name := "students" }, ["dynamo_resource", "table"])) :=
  ⟨by decide, C9_constructor_assertion "students" (by decide)⟩

end FastStudentsApi
